import Mathlib

/-!
Verification of the budget/alert core of the `controle_despesas` personal
finance tracker (files `categoria.py`, `lancamento.py`, `alerta.py`,
`orcamento.py`), via a shallow embedding.

Modelling conventions:
* Python `float` amounts are modelled as exact rationals (`ℚ`); every value
  appearing in the verified scenarios is exactly representable.
* Python `datetime.date` is modelled as a `(year, month, day)` triple of
  naturals with lexicographic comparison (Python compares dates that way).
* `uuid.uuid4()` identifiers are nondeterministic; constructors therefore take
  the identifier as an argument.  `Alerta`'s generated `id`/`data_criacao`
  fields are nondeterministic fresh values that no verified property reads,
  so they are not part of the `Alerta` model.
* Methods that `raise` are modelled with `Except String`; methods that
  mutate `self` return the updated value.  `adicionar_lancamento` returns the
  updated budget together with `Except String (List Alerta)`; on the error
  paths the returned budget is the unchanged input, mirroring that the source
  raises before its first mutation.
* Python's insertion-ordered `dict` is modelled as an association list with
  in-place update on existing keys (`dictSet` / `addToTotals`).
* `list.sort()` / `sorted(...)` (stable sorts) are modelled with
  `List.insertionSort`, which is stable; no verified property observes the
  relative order of entries that compare equal.
-/

unseal Rat.add Rat.sub Rat.mul Rat.inv Rat.ofScientific

/-- Python's `str.strip()`: drop leading and trailing whitespace (structural
counterpart of `String.trim`, so that concrete runs reduce). -/
def pyStrip (s : String) : String :=
  ⟨((s.data.dropWhile Char.isWhitespace).reverse.dropWhile Char.isWhitespace).reverse⟩

/-- Python's `str.lower()` (structural counterpart of `String.toLower`). -/
def pyLower (s : String) : String :=
  ⟨s.data.map Char.toLower⟩

/-- Python `datetime.date` (time-of-day is never stored by the program). -/
structure Data where
  year : Nat
  month : Nat
  day : Nat
deriving DecidableEq

/-- Lexicographic date comparison, as Python compares `date` values. -/
def Data.lt (a b : Data) : Prop :=
  a.year < b.year ∨ (a.year = b.year ∧
    (a.month < b.month ∨ (a.month = b.month ∧ a.day < b.day)))

instance (a b : Data) : Decidable (Data.lt a b) :=
  inferInstanceAs (Decidable (a.year < b.year ∨ (a.year = b.year ∧
    (a.month < b.month ∨ (a.month = b.month ∧ a.day < b.day)))))

/-- `a ≤ b` on dates, expressed as in a total strict order. -/
def Data.le (a b : Data) : Prop := ¬ Data.lt b a

instance (a b : Data) : Decidable (Data.le a b) :=
  inferInstanceAs (Decidable (¬ Data.lt b a))

/-- `TipoCategoria` enum from `categoria.py`. -/
inductive TipoCategoria
  | RECEITA
  | DESPESA
deriving DecidableEq

/-- `FormaPagamento` enum from `lancamento.py`. -/
inductive FormaPagamento
  | DINHEIRO
  | DEBITO
  | CREDITO
  | PIX
deriving DecidableEq

/-- `TipoAlerta` enum from `alerta.py`. -/
inductive TipoAlerta
  | ALTO_VALOR
  | LIMITE_EXCEDIDO
  | DEFICIT_ORCAMENTARIO
  | SALDO_NEGATIVO
  | META_NAO_ATINGIDA
deriving DecidableEq

/-- `Categoria` state (`categoria.py`). -/
structure Categoria where
  id : String
  nome : String
  tipo : TipoCategoria
  limite_mensal : Option ℚ
  descricao : Option String
deriving DecidableEq

namespace Categoria

/-- The `nome` setter: non-empty string whose trimmed form has ≥ 2 characters;
stores the trimmed name. -/
def set_nome (c : Categoria) (valor : String) : Except String Categoria :=
  if valor = "" then
    .error "Nome da categoria é obrigatório e deve ser uma string."
  else if (pyStrip valor).length < 2 then
    .error "Nome da categoria deve ter pelo menos 2 caracteres."
  else
    .ok { c with nome := pyStrip valor }

/-- The `tipo` setter: only an `isinstance` check in the source, which the
typed embedding renders always-true, so the setter is total.  It does not
re-check `limite_mensal`. -/
def set_tipo (c : Categoria) (valor : TipoCategoria) : Categoria :=
  { c with tipo := valor }

/-- The `limite_mensal` setter: a non-null limit is rejected on a RECEITA
category and must be strictly positive. -/
def set_limite_mensal (c : Categoria) (valor : Option ℚ) : Except String Categoria :=
  match valor with
  | some v =>
      if c.tipo = TipoCategoria.RECEITA then
        .error "Categorias de receita não podem ter limite de gastos."
      else if v ≤ 0 then
        .error "Limite mensal deve ser maior que zero."
      else
        .ok { c with limite_mensal := some v }
  | none => .ok { c with limite_mensal := none }

/-- The `descricao` setter: trims, and turns a falsy value into `None`. -/
def set_descricao (c : Categoria) (valor : Option String) : Categoria :=
  match valor with
  | some s => { c with descricao := if s = "" then none else some (pyStrip s) }
  | none => { c with descricao := none }

/-- `Categoria.__init__`: sets `descricao` directly (no trimming there), then
runs the `nome`, `tipo` and `limite_mensal` setters in that order. -/
def mk_valid (nome : String) (tipo : TipoCategoria) (limite_mensal : Option ℚ)
    (descricao : Option String) (id : String) : Except String Categoria :=
  let c0 : Categoria :=
    { id := id, nome := "", tipo := tipo, limite_mensal := none, descricao := descricao }
  match c0.set_nome nome with
  | .error e => .error e
  | .ok c1 => (c1.set_tipo tipo).set_limite_mensal limite_mensal

/-- `Categoria.__eq__`: case-insensitive name plus kind; the identifier is
ignored. -/
def eqb (a b : Categoria) : Bool :=
  decide (pyLower a.nome = pyLower b.nome) && decide (a.tipo = b.tipo)

/-- `Categoria.__hash__` is `hash(self._id)`: the process's string-hash
function applied to the identifier alone.  Python's string hash is seeded per
process, so it is modelled parametrically in the hash function `h`. -/
def hashWith (h : String → Int) (c : Categoria) : Int := h c.id

/-- The invariant stated by the spec: an income category carries no limit. -/
def inv (c : Categoria) : Prop :=
  c.tipo = TipoCategoria.RECEITA → c.limite_mensal = none

instance (c : Categoria) : Decidable (Categoria.inv c) :=
  inferInstanceAs (Decidable (c.tipo = TipoCategoria.RECEITA → c.limite_mensal = none))

end Categoria

instance {ε α : Type} [DecidableEq ε] [DecidableEq α] : DecidableEq (Except ε α) :=
  fun x y =>
    match x, y with
    | .error a, .error b =>
        if h : a = b then .isTrue (by rw [h])
        else .isFalse (fun hc => by cases hc; exact h rfl)
    | .ok a, .ok b =>
        if h : a = b then .isTrue (by rw [h])
        else .isFalse (fun hc => by cases hc; exact h rfl)
    | .error _, .ok _ => .isFalse (fun hc => by cases hc)
    | .ok _, .error _ => .isFalse (fun hc => by cases hc)

/-- Python's `f"{n:02d}"` on a natural number. -/
def pad2 (n : Nat) : String :=
  if n < 10 then "0" ++ toString n else toString n

/-- Python's `f"{x:.2f}"` on the exact rationals the program produces
(rounding to the nearest cent; every formatted value in the verified
scenarios is an exact multiple of a cent, where no rounding-mode subtlety
arises).  The nonnegative cent count is extracted as a truncated integer
division, which on nonnegative rationals is the floor. -/
def format2 (q : ℚ) : String :=
  let a : ℚ := if q < 0 then -q else q
  let r : ℚ := a * 100 + 1 / 2
  let cents : ℤ := r.num / (r.den : ℤ)
  let whole : ℤ := cents / 100
  let frac : ℤ := cents % 100
  (if q < 0 then "-" else "") ++ toString whole ++ "." ++
    (if frac < 10 then "0" else "") ++ toString frac

/-- `Alerta` state (`alerta.py`).  The nondeterministic `id` and
`data_criacao` fields are not modelled (no verified property reads them). -/
structure Alerta where
  tipo : TipoAlerta
  mensagem : String
  lancamento_id : Option String
  categoria_id : Option String
  mes_ano : Option (Nat × Nat)
  lido : Bool
deriving DecidableEq

namespace Alerta

/-- `Alerta.__init__` as used by the factory methods: the `mensagem` setter
trims its argument (the factories always supply a non-empty message, so the
emptiness check never fires on these paths). -/
def make (tipo : TipoAlerta) (mensagem : String) (lancamento_id : Option String)
    (categoria_id : Option String) (mes_ano : Option (Nat × Nat)) : Alerta :=
  { tipo := tipo, mensagem := pyStrip mensagem, lancamento_id := lancamento_id,
    categoria_id := categoria_id, mes_ano := mes_ano, lido := false }

/-- `Alerta.criar_alerta_alto_valor`. -/
def criar_alerta_alto_valor (lancamento_id : String) (valor : ℚ) : Alerta :=
  make TipoAlerta.ALTO_VALOR
    ("Despesa de alto valor registrada: R$" ++ format2 valor)
    (some lancamento_id) none none

/-- `Alerta.criar_alerta_limite_excedido`. -/
def criar_alerta_limite_excedido (categoria_id : String) (categoria_nome : String)
    (limite : ℚ) (total : ℚ) : Alerta :=
  make TipoAlerta.LIMITE_EXCEDIDO
    ("Limite da categoria '" ++ categoria_nome ++ "' excedido! Limite: R$" ++
      format2 limite ++ ", Total: R$" ++ format2 total)
    none (some categoria_id) none

/-- `Alerta.criar_alerta_deficit`. -/
def criar_alerta_deficit (mes : Nat) (ano : Nat) (saldo : ℚ) : Alerta :=
  make TipoAlerta.DEFICIT_ORCAMENTARIO
    ("Déficit orçamentário em " ++ pad2 mes ++ "/" ++ toString ano ++ ": R$" ++
      format2 |saldo|)
    none none (some (mes, ano))

end Alerta

/-- The fields shared by `Receita` and `Despesa` (base class `Lancamento` in
`lancamento.py`).  The `descricao` field holds the trimmed description. -/
structure LancamentoBase where
  id : String
  valor : ℚ
  categoria : Categoria
  data : Data
  descricao : String
  forma_pagamento : FormaPagamento
deriving DecidableEq

/-- A financial entry: a `Receita`, or a `Despesa` together with its
alert-tag list `_alertas`. -/
inductive Lancamento
  | receita (base : LancamentoBase)
  | despesa (base : LancamentoBase) (alertas : List String)
deriving DecidableEq

namespace Lancamento

def base : Lancamento → LancamentoBase
  | receita b => b
  | despesa b _ => b

def id (l : Lancamento) : String := l.base.id

def valor (l : Lancamento) : ℚ := l.base.valor

def categoria (l : Lancamento) : Categoria := l.base.categoria

def data (l : Lancamento) : Data := l.base.data

def descricao (l : Lancamento) : String := l.base.descricao

/-- `Despesa.alertas` (a `Receita` has no tag list; reading it there yields
the empty list, which no source path does). -/
def alertas : Lancamento → List String
  | receita _ => []
  | despesa _ al => al

def isReceita : Lancamento → Bool
  | receita _ => true
  | despesa _ _ => false

/-- `Lancamento.mes_ano`: the `(month, year)` pair of the entry's date. -/
def mes_ano (l : Lancamento) : Nat × Nat := (l.data.month, l.data.year)

/-- `Lancamento.__eq__`: identifiers match, or date and case-insensitive
description both match. -/
def eqb (a b : Lancamento) : Bool :=
  decide (a.id = b.id) ||
    (decide (a.data = b.data) && decide (pyLower a.descricao = pyLower b.descricao))

/-- `Lancamento.__hash__` is `hash(self._id)`; modelled parametrically in the
process's string-hash function, as for `Categoria.hashWith`. -/
def hashWith (h : String → Int) (l : Lancamento) : Int := h l.id

/-- `Lancamento.__lt__`: by date, ties broken by amount. -/
def lt (a b : Lancamento) : Prop :=
  if a.data = b.data then a.valor < b.valor else Data.lt a.data b.data

instance (a b : Lancamento) : Decidable (Lancamento.lt a b) :=
  inferInstanceAs (Decidable (if a.data = b.data then a.valor < b.valor
    else Data.lt a.data b.data))

/-- The total preorder induced by `__lt__`, used to model the stable
`list.sort()`. -/
def le (a b : Lancamento) : Prop := ¬ Lancamento.lt b a

instance (a b : Lancamento) : Decidable (Lancamento.le a b) :=
  inferInstanceAs (Decidable (¬ Lancamento.lt b a))

/-- Date-only comparison used to model `sorted(..., key=lambda x: x.data)`. -/
def dateLe (a b : Lancamento) : Prop := Data.le a.data b.data

instance (a b : Lancamento) : Decidable (Lancamento.dateLe a b) :=
  inferInstanceAs (Decidable (Data.le a.data b.data))

/-- The `valor` setter on the base class: accepts any strictly positive
number; a `Despesa`'s tag list is untouched (`_verificar_alertas` only runs
at construction). -/
def set_valor (l : Lancamento) (v : ℚ) : Except String Lancamento :=
  if v ≤ 0 then .error "Valor do lançamento deve ser maior que zero."
  else .ok (match l with
    | receita b => receita { b with valor := v }
    | despesa b al => despesa { b with valor := v } al)

/-- The signed contribution of an entry to a balance: income adds, expense
subtracts. -/
def signed : Lancamento → ℚ
  | receita b => b.valor
  | despesa b _ => -b.valor

end Lancamento

namespace Despesa

/-- `Despesa.__init__`: the base-class setters validate amount, category kind
and description; `_verificar_alertas` then sets the ALTO_VALOR tag when the
construction-time amount exceeds 500.0. -/
def mk_valid (valor : ℚ) (categoria : Categoria) (data : Data) (descricao : String)
    (forma_pagamento : FormaPagamento) (id : String) : Except String Lancamento :=
  if valor ≤ 0 then .error "Valor do lançamento deve ser maior que zero."
  else if categoria.tipo ≠ TipoCategoria.DESPESA then
    .error "Despesas devem ter categoria do tipo DESPESA."
  else if descricao = "" then .error "Descrição é obrigatória."
  else .ok (Lancamento.despesa
    { id := id, valor := valor, categoria := categoria, data := data,
      descricao := pyStrip descricao, forma_pagamento := forma_pagamento }
    (if 500 < valor then ["ALTO_VALOR"] else []))

/-- `Despesa.verificar_limite_categoria`, written on the despesa's category,
amount and tag list (its `self` fields): returns the exceeded flag and the
updated tag list. -/
def verificar_limite_categoria (categoria : Categoria) (valor : ℚ)
    (alertas : List String) (total_categoria_mes : ℚ) : Bool × List String :=
  match categoria.limite_mensal with
  | some limite =>
      if total_categoria_mes + valor > limite then
        (true,
          if alertas.contains "LIMITE_EXCEDIDO" then alertas
          else alertas ++ ["LIMITE_EXCEDIDO"])
      else (false, alertas)
  | none => (false, alertas)

end Despesa

namespace Receita

/-- `Receita.__init__`: base-class validation with the RECEITA category-kind
check. -/
def mk_valid (valor : ℚ) (categoria : Categoria) (data : Data) (descricao : String)
    (forma_pagamento : FormaPagamento) (id : String) : Except String Lancamento :=
  if valor ≤ 0 then .error "Valor do lançamento deve ser maior que zero."
  else if categoria.tipo ≠ TipoCategoria.RECEITA then
    .error "Receitas devem ter categoria do tipo RECEITA."
  else if descricao = "" then .error "Descrição é obrigatória."
  else .ok (Lancamento.receita
    { id := id, valor := valor, categoria := categoria, data := data,
      descricao := pyStrip descricao, forma_pagamento := forma_pagamento })

end Receita

/-- Association-list lookup (first match), the read side of the `dict`
model. -/
def alookup {α β : Type} [DecidableEq α] (k : α) : List (α × β) → Option β
  | [] => none
  | (k', v) :: rest => if k' = k then some v else alookup k rest

/-- `d[k] = v` on an insertion-ordered Python `dict`: overwrite the existing
binding in place, else append. -/
def dictSet {α β : Type} [DecidableEq α] : List (α × β) → α → β → List (α × β)
  | [], k, v => [(k, v)]
  | (k', v') :: rest, k, v =>
      if k' = k then (k, v) :: rest else (k', v') :: dictSet rest k v

/-- `d[k] += v` on a `defaultdict(float)`. -/
def addToTotals : List (String × ℚ) → String → ℚ → List (String × ℚ)
  | [], k, v => [(k, v)]
  | (k', v') :: rest, k, v =>
      if k' = k then (k', v' + v) :: rest else (k', v') :: addToTotals rest k v

/-- `OrcamentoMensal` state (`orcamento.py`). -/
structure OrcamentoMensal where
  id : String
  mes : Nat
  ano : Nat
  receitas_previstas : ℚ
  lancamentos : List Lancamento
  alertas : List Alerta
deriving DecidableEq

namespace OrcamentoMensal

/-- `OrcamentoMensal.__init__`: validates month, year and planned income and
starts with empty entry and alert lists. -/
def mk_valid (mes : Nat) (ano : Nat) (receitas_previstas : ℚ) (id : String) :
    Except String OrcamentoMensal :=
  if ¬ (1 ≤ mes ∧ mes ≤ 12) then .error "Mês deve ser um inteiro entre 1 e 12."
  else if ano < 1900 ∨ ano > 2100 then .error "Ano deve ser um inteiro válido (1900-2100)."
  else if receitas_previstas < 0 then .error "Receitas previstas não pode ser negativo."
  else .ok { id := id, mes := mes, ano := ano,
             receitas_previstas := receitas_previstas, lancamentos := [], alertas := [] }

def mes_ano (o : OrcamentoMensal) : Nat × Nat := (o.mes, o.ano)

/-- `total_receitas`: sum of the incomes held. -/
def total_receitas (o : OrcamentoMensal) : ℚ :=
  ((o.lancamentos.filter Lancamento.isReceita).map Lancamento.valor).sum

/-- `total_despesas`: sum of the expenses held. -/
def total_despesas (o : OrcamentoMensal) : ℚ :=
  ((o.lancamentos.filter (fun l => ! l.isReceita)).map Lancamento.valor).sum

def saldo (o : OrcamentoMensal) : ℚ := o.total_receitas - o.total_despesas

def tem_deficit (o : OrcamentoMensal) : Prop := o.saldo < 0

instance (o : OrcamentoMensal) : Decidable o.tem_deficit :=
  inferInstanceAs (Decidable (o.saldo < 0))

/-- `total_por_categoria`: sum of the amounts of all held entries whose
category equals (per `Categoria.__eq__`) the given one. -/
def total_por_categoria (o : OrcamentoMensal) (categoria : Categoria) : ℚ :=
  ((o.lancamentos.filter (fun l => Categoria.eqb l.categoria categoria)).map
    Lancamento.valor).sum

/-- `despesas_por_categoria`: expense totals grouped by category name. -/
def despesas_por_categoria (o : OrcamentoMensal) : List (String × ℚ) :=
  o.lancamentos.foldl
    (fun m l => match l with
      | Lancamento.receita _ => m
      | Lancamento.despesa b _ => addToTotals m b.categoria.nome b.valor)
    []

/-- `percentual_por_categoria`: share of each category in the total expense;
empty when the total is zero. -/
def percentual_por_categoria (o : OrcamentoMensal) : List (String × ℚ) :=
  let total := o.total_despesas
  if total = 0 then []
  else o.despesas_por_categoria.map (fun p => (p.1, p.2 / total * 100))

/-- The loop body list of `saldo_por_dia`: replay the (already date-sorted)
entries, accumulating the running balance and writing it under the entry's
date. -/
def saldoGo : List Lancamento → ℚ → List (Data × ℚ) → List (Data × ℚ)
  | [], _, m => m
  | l :: rest, acumulado, m =>
      let acumulado' := acumulado + l.signed
      saldoGo rest acumulado' (dictSet m l.data acumulado')

/-- `saldo_por_dia`: running balance keyed by date, replaying the entries
sorted by date. -/
def saldo_por_dia (o : OrcamentoMensal) : List (Data × ℚ) :=
  saldoGo (List.insertionSort Lancamento.dateLe o.lancamentos) 0 []

/-- The predicate of the `deficit_existente` check in
`adicionar_lancamento`. -/
def ehAlertaDeficit (ma : Nat × Nat) (a : Alerta) : Bool :=
  decide (a.tipo = TipoAlerta.DEFICIT_ORCAMENTARIO) && decide (a.mes_ano = some ma)

/-- The expense-only alert-generation block of `adicionar_lancamento`
(steps 3a and 3b): returns the entry with its possibly-updated tag list and
the newly generated alerts, in order. -/
def alertasDespesa (o : OrcamentoMensal) (b : LancamentoBase) (al : List String) :
    Lancamento × List Alerta :=
  let gAlto :=
    if al.contains "ALTO_VALOR" then [Alerta.criar_alerta_alto_valor b.id b.valor]
    else []
  let total_categoria := o.total_por_categoria b.categoria
  let chk := Despesa.verificar_limite_categoria b.categoria b.valor al total_categoria
  let gLim :=
    if chk.1 then
      [Alerta.criar_alerta_limite_excedido b.categoria.id b.categoria.nome
        (b.categoria.limite_mensal.getD 0) (total_categoria + b.valor)]
    else []
  (Lancamento.despesa b chk.2, gAlto ++ gLim)

/-- The second half of `adicionar_lancamento`: insert keeping the collection
sorted, log the generated alerts, then run the deficit check (step 6). -/
def inserirEAlertar (o : OrcamentoMensal) (l : Lancamento) (gerados : List Alerta) :
    OrcamentoMensal × List Alerta :=
  let lancs := List.insertionSort Lancamento.le (o.lancamentos ++ [l])
  let alertas1 := o.alertas ++ gerados
  let o1 : OrcamentoMensal := { o with lancamentos := lancs, alertas := alertas1 }
  if o1.tem_deficit then
    if alertas1.any (ehAlertaDeficit o.mes_ano) then (o1, gerados)
    else
      let ad := Alerta.criar_alerta_deficit o.mes o.ano o1.saldo
      ({ o1 with alertas := alertas1 ++ [ad] }, gerados ++ [ad])
  else (o1, gerados)

/-- `adicionar_lancamento`: month membership and duplicate checks, expense
alert policy, ordered insertion, deficit check; returns the updated budget
and the newly generated alerts.  The source raises before its first mutation,
so on the error paths the returned budget is the unchanged input. -/
def adicionar_lancamento (o : OrcamentoMensal) (l : Lancamento) :
    OrcamentoMensal × Except String (List Alerta) :=
  if l.mes_ano ≠ o.mes_ano then
    (o, .error ("Lançamento de " ++ pad2 l.mes_ano.1 ++ "/" ++ toString l.mes_ano.2 ++
      " não pertence ao orçamento de " ++ pad2 o.mes ++ "/" ++ toString o.ano ++ "."))
  else if o.lancamentos.any (fun e => Lancamento.eqb e l) then
    (o, .error "Lançamento já existe neste orçamento.")
  else
    let pr : Lancamento × List Alerta :=
      match l with
      | Lancamento.receita b => (Lancamento.receita b, [])
      | Lancamento.despesa b al => o.alertasDespesa b al
    let r := o.inserirEAlertar pr.1 pr.2
    (r.1, .ok r.2)

/-- Replay a sequence of `adicionar_lancamento` calls; a failing call leaves
the budget untouched (the exception is recoverable). -/
def addAll (o : OrcamentoMensal) (ls : List Lancamento) : OrcamentoMensal :=
  ls.foldl (fun s l => (s.adicionar_lancamento l).1) o

/-- Number of deficit alerts in the log carrying the budget's own
month-year. -/
def deficitCount (o : OrcamentoMensal) : Nat :=
  (o.alertas.filter (ehAlertaDeficit o.mes_ano)).length

end OrcamentoMensal

/-! Concrete inputs used by witnesses, counterexamples and scenario parts of
the claims. -/

/-- The "Food" expense category with monthly limit 500.0 of the spec's
limit-exceeded scenario. -/
def catFood : Categoria :=
  { id := "cat-food", nome := "Food", tipo := TipoCategoria.DESPESA,
    limite_mensal := some 500, descricao := none }

/-- An income category. -/
def catSalario : Categoria :=
  { id := "cat-salario", nome := "Salário", tipo := TipoCategoria.RECEITA,
    limite_mensal := none, descricao := none }

/-- Expense of 400.0 on Food, 2024-12-05 (no construction-time tag:
400 ≤ 500). -/
def dC400 : Lancamento :=
  Lancamento.despesa
    { id := "d1", valor := 400, categoria := catFood, data := ⟨2024, 12, 5⟩,
      descricao := "Compra 1", forma_pagamento := FormaPagamento.DEBITO } []

/-- Expense of 200.0 on Food, 2024-12-10. -/
def dC200 : Lancamento :=
  Lancamento.despesa
    { id := "d2", valor := 200, categoria := catFood, data := ⟨2024, 12, 10⟩,
      descricao := "Compra 2", forma_pagamento := FormaPagamento.DEBITO } []

/-- The empty December 2024 budget of the scenarios. -/
def oC1 : OrcamentoMensal :=
  { id := "orc-1", mes := 12, ano := 2024, receitas_previstas := 0,
    lancamentos := [], alertas := [] }

/-- Expense of 600.0 on Food (gets the ALTO_VALOR tag at construction). -/
def dC600 : Lancamento :=
  Lancamento.despesa
    { id := "d9", valor := 600, categoria := catFood, data := ⟨2024, 12, 5⟩,
      descricao := "Compra grande", forma_pagamento := FormaPagamento.CREDITO }
    ["ALTO_VALOR"]

/-- A "Transport" expense category without limit. -/
def catTransport : Categoria :=
  { id := "cat-transport", nome := "Transport", tipo := TipoCategoria.DESPESA,
    limite_mensal := none, descricao := none }

/-- A "Food" expense category without limit (percentage scenario). -/
def catFoodNL : Categoria :=
  { id := "cat-food-nl", nome := "Food", tipo := TipoCategoria.DESPESA,
    limite_mensal := none, descricao := none }

/-- Budget holding expenses Food 300.0 and Transport 100.0 (percentage
scenario). -/
def oC6 : OrcamentoMensal :=
  { id := "orc-6", mes := 12, ano := 2024, receitas_previstas := 0,
    lancamentos :=
      [Lancamento.despesa
        { id := "p1", valor := 300, categoria := catFoodNL, data := ⟨2024, 12, 5⟩,
          descricao := "Food", forma_pagamento := FormaPagamento.DEBITO } [],
       Lancamento.despesa
        { id := "p2", valor := 100, categoria := catTransport, data := ⟨2024, 12, 10⟩,
          descricao := "Transport", forma_pagamento := FormaPagamento.PIX } []],
    alertas := [] }

/-- A November income entry (month-mismatch input for the December budget). -/
def rNov : Lancamento :=
  Lancamento.receita
    { id := "r-nov", valor := 1000, categoria := catSalario, data := ⟨2024, 11, 5⟩,
      descricao := "Salário", forma_pagamento := FormaPagamento.PIX }

/-- Tiny budget and expense used to instantiate hypotheses concretely. -/
def oW : OrcamentoMensal :=
  { id := "ow", mes := 1, ano := 2000, receitas_previstas := 0,
    lancamentos := [], alertas := [] }

def bW : LancamentoBase :=
  { id := "w1", valor := 1, categoria := catFood, data := ⟨2000, 1, 2⟩,
    descricao := "w", forma_pagamento := FormaPagamento.DINHEIRO }

def dW : Lancamento := Lancamento.despesa bW []

/-- The budget state after `oW` accepts `dW`. -/
def oW2 : OrcamentoMensal :=
  { id := "ow", mes := 1, ano := 2000, receitas_previstas := 0,
    lancamentos := [dW], alertas := [Alerta.criar_alerta_deficit 1 2000 (-1)] }

/-- The December budget after the 400.0 Food expense was accepted. -/
def o1C : OrcamentoMensal := (oC1.adicionar_lancamento dC400).1

/-- Categoria pair with equal name+kind but distinct identifiers. -/
def cat8a : Categoria :=
  { id := "x", nome := "Food", tipo := TipoCategoria.DESPESA,
    limite_mensal := none, descricao := none }

def cat8b : Categoria :=
  { id := "yy", nome := "food", tipo := TipoCategoria.DESPESA,
    limite_mensal := none, descricao := none }

/-- Entry pair equal through the date + case-insensitive description path,
with distinct identifiers. -/
def l8a : Lancamento :=
  Lancamento.receita
    { id := "x", valor := 5, categoria := catSalario, data := ⟨2024, 12, 1⟩,
      descricao := "Coffee", forma_pagamento := FormaPagamento.PIX }

def l8b : Lancamento :=
  Lancamento.receita
    { id := "yy", valor := 7, categoria := catSalario, data := ⟨2024, 12, 1⟩,
      descricao := "COFFEE", forma_pagamento := FormaPagamento.PIX }

/-- A RECEITA category produced by the validated constructor. -/
def cSal : Categoria :=
  { id := "c1", nome := "Salário", tipo := TipoCategoria.RECEITA,
    limite_mensal := none, descricao := none }

/-- A limited DESPESA category produced by the validated constructor. -/
def cContas : Categoria :=
  { id := "c2", nome := "Contas", tipo := TipoCategoria.DESPESA,
    limite_mensal := some 100, descricao := none }

/-! Theorems. -/

/-- C4: `verificar_limite_categoria` returns true exactly when a limit exists
and the already-spent figure plus this expense's amount exceeds it, returns
false whenever no limit exists, leaves the tag list untouched when it returns
false, and a second call with the same arguments leaves exactly one
occurrence of the LIMITE_EXCEDIDO tag. -/
theorem claim_C4_verificar_limite (cat : Categoria) (valor : ℚ) (al : List String)
    (total : ℚ) (_htotal : 0 ≤ total) :
    ((Despesa.verificar_limite_categoria cat valor al total).1 = true ↔
      ∃ lim, cat.limite_mensal = some lim ∧ total + valor > lim)
    ∧ (cat.limite_mensal = none →
        (Despesa.verificar_limite_categoria cat valor al total).1 = false)
    ∧ ((Despesa.verificar_limite_categoria cat valor al total).1 = false →
        (Despesa.verificar_limite_categoria cat valor al total).2 = al)
    ∧ ("LIMITE_EXCEDIDO" ∉ al →
        (Despesa.verificar_limite_categoria cat valor al total).1 = true →
        ((Despesa.verificar_limite_categoria cat valor
            (Despesa.verificar_limite_categoria cat valor al total).2 total).2.count
          "LIMITE_EXCEDIDO") = 1) := by
  unfold Despesa.verificar_limite_categoria
  cases hl : cat.limite_mensal with
  | none => simp
  | some lim =>
      by_cases hgt : total + valor > lim
      · by_cases hmem : "LIMITE_EXCEDIDO" ∈ al
        · simp [hgt, hmem, List.count_eq_zero]
        · have hc : al.contains "LIMITE_EXCEDIDO" = false := by
            simpa using hmem
          simp [hgt, hc, hmem, List.count_append, List.count_eq_zero]
      · simp [hgt]

/-- Witness for C4 at the limit-exceeded scenario figures. -/
theorem claim_C4_witness :
    (0 : ℚ) ≤ 400 ∧
    (((Despesa.verificar_limite_categoria catFood 200 [] 400).1 = true ↔
      ∃ lim, catFood.limite_mensal = some lim ∧ 400 + 200 > lim)
    ∧ (catFood.limite_mensal = none →
        (Despesa.verificar_limite_categoria catFood 200 [] 400).1 = false)
    ∧ ((Despesa.verificar_limite_categoria catFood 200 [] 400).1 = false →
        (Despesa.verificar_limite_categoria catFood 200 [] 400).2 = [])
    ∧ ("LIMITE_EXCEDIDO" ∉ ([] : List String) →
        (Despesa.verificar_limite_categoria catFood 200 [] 400).1 = true →
        ((Despesa.verificar_limite_categoria catFood 200
            (Despesa.verificar_limite_categoria catFood 200 [] 400).2 400).2.count
          "LIMITE_EXCEDIDO") = 1)) :=
  ⟨by norm_num, claim_C4_verificar_limite catFood 200 [] 400 (by norm_num)⟩

/-- C5 counterexample: a successful constructor call followed by a successful
`tipo` setter call yields a RECEITA category still carrying limit 100. -/
theorem claim_C5_counterexample :
    Categoria.mk_valid "Contas" TipoCategoria.DESPESA (some 100) none "c2" = .ok cContas
    ∧ (cContas.set_tipo TipoCategoria.RECEITA).tipo = TipoCategoria.RECEITA
    ∧ (cContas.set_tipo TipoCategoria.RECEITA).limite_mensal = some 100 :=
  ⟨by decide, rfl, rfl⟩

/-- C5 (amended): construction and the `nome`, `limite_mensal` and
`descricao` setters preserve the income-categories-carry-no-limit invariant;
the `tipo` setter, which performs no limit check, is excluded. -/
theorem claim_C5_categoria_invariant :
    (∀ nome tipo lim desc i c,
      Categoria.mk_valid nome tipo lim desc i = .ok c → c.inv)
    ∧ (∀ c v c', c.inv → Categoria.set_nome c v = .ok c' → c'.inv)
    ∧ (∀ c v c', Categoria.set_limite_mensal c v = .ok c' → c'.inv)
    ∧ (∀ c v, c.inv → (Categoria.set_descricao c v).inv) := by
  have hlim : ∀ c v c', Categoria.set_limite_mensal c v = .ok c' → c'.inv := by
    intro c v c' h
    unfold Categoria.set_limite_mensal at h
    match v with
    | none =>
        simp only at h
        cases h
        intro _; rfl
    | some q =>
        simp only at h
        split at h
        · cases h
        · split at h
          · cases h
          · cases h
            intro hr
            simp_all [Categoria.inv]
  refine ⟨?_, ?_, hlim, ?_⟩
  · intro nome tipo lim desc i c h
    unfold Categoria.mk_valid at h
    dsimp only at h
    cases hn : Categoria.set_nome
        { id := i, nome := "", tipo := tipo, limite_mensal := none, descricao := desc }
        nome with
    | error e => rw [hn] at h; cases h
    | ok c1 => rw [hn] at h; exact hlim _ _ _ h
  · intro c v c' hi h
    unfold Categoria.set_nome at h
    split at h
    · cases h
    · split at h
      · cases h
      · cases h
        intro hr
        exact hi hr
  · intro c v hi
    unfold Categoria.set_descricao
    match v with
    | none => intro hr; exact hi hr
    | some s => intro hr; exact hi hr

/-- Witness for C5 at a concrete RECEITA construction. -/
theorem claim_C5_witness :
    Categoria.mk_valid "Salário" TipoCategoria.RECEITA none none "c1" = .ok cSal
    ∧ cSal.inv :=
  ⟨by decide,
    claim_C5_categoria_invariant.1 "Salário" TipoCategoria.RECEITA none none "c1" cSal
      (by decide)⟩

/-- C8: equality ignores the identifier while the hash is a function of the
identifier alone, so any process string-hash separating the two identifiers
makes equal `Categoria` values (same case-insensitive name and kind) hash
differently, and likewise equal `Lancamento` values (equal through the
date + case-insensitive description path). -/
theorem claim_C8_hash_inconsistente (h : String → Int) (hne : h "x" ≠ h "yy") :
    (Categoria.eqb cat8a cat8b = true ∧ cat8a.id ≠ cat8b.id ∧
      Categoria.hashWith h cat8a ≠ Categoria.hashWith h cat8b)
    ∧ (Lancamento.eqb l8a l8b = true ∧ l8a.id ≠ l8b.id ∧
      Lancamento.hashWith h l8a ≠ Lancamento.hashWith h l8b) := by
  refine ⟨⟨by decide, by decide, ?_⟩, by decide, by decide, ?_⟩
  · simpa [Categoria.hashWith, cat8a, cat8b] using hne
  · simpa [Lancamento.hashWith, Lancamento.id, Lancamento.base, l8a, l8b] using hne

/-- Witness for C8 with the string-length function as a hash separating the
two identifiers. -/
theorem claim_C8_witness :
    String.length "x" ≠ String.length "yy" ∧
    ((Categoria.eqb cat8a cat8b = true ∧ cat8a.id ≠ cat8b.id ∧
      Categoria.hashWith (fun s => (String.length s : Int)) cat8a ≠
        Categoria.hashWith (fun s => (String.length s : Int)) cat8b)
    ∧ (Lancamento.eqb l8a l8b = true ∧ l8a.id ≠ l8b.id ∧
      Lancamento.hashWith (fun s => (String.length s : Int)) l8a ≠
        Lancamento.hashWith (fun s => (String.length s : Int)) l8b)) :=
  ⟨by decide,
    claim_C8_hash_inconsistente (fun s => (String.length s : Int)) (by decide)⟩

/-- C9: a validly constructed `Despesa` carries the ALTO_VALOR tag exactly
when the construction-time amount exceeds 500.0; the `valor` setter accepts
any strictly positive amount, updates the stored amount, and never touches
the tag list. -/
theorem claim_C9_alto_valor_frame (v : ℚ) (cat : Categoria) (dt : Data)
    (desc : String) (fp : FormaPagamento) (i : String) (l : Lancamento)
    (hok : Despesa.mk_valid v cat dt desc fp i = .ok l) :
    (("ALTO_VALOR" ∈ l.alertas) ↔ 500 < v)
    ∧ (∀ v' : ℚ, 0 < v' →
        ∃ l', l.set_valor v' = .ok l' ∧ l'.valor = v' ∧ l'.alertas = l.alertas)
    ∧ (∀ (v' : ℚ) l', l.set_valor v' = .ok l' →
        l'.valor = v' ∧ l'.alertas = l.alertas) := by
  unfold Despesa.mk_valid at hok
  split at hok
  · cases hok
  · split at hok
    · cases hok
    · split at hok
      · cases hok
      · cases hok
        refine ⟨?_, ?_, ?_⟩
        · by_cases hv : 500 < v <;> simp [Lancamento.alertas, hv]
        · intro v' hv'
          unfold Lancamento.set_valor
          rw [if_neg (not_le.mpr hv')]
          exact ⟨_, rfl, rfl, rfl⟩
        · intro v' l' hs
          unfold Lancamento.set_valor at hs
          split at hs
          · cases hs
          · cases hs
            exact ⟨rfl, rfl⟩

/-- Witness for C9: the 600.0 expense gets the tag, and re-pricing it to
100.0 keeps the tag. -/
theorem claim_C9_witness :
    Despesa.mk_valid 600 catFood ⟨2024, 12, 5⟩ "Compra grande"
      FormaPagamento.CREDITO "d9" = .ok dC600
    ∧ ((("ALTO_VALOR" ∈ dC600.alertas) ↔ (500 : ℚ) < 600)
      ∧ (∀ v' : ℚ, 0 < v' →
          ∃ l', dC600.set_valor v' = .ok l' ∧ l'.valor = v' ∧ l'.alertas = dC600.alertas)
      ∧ (∀ (v' : ℚ) l', dC600.set_valor v' = .ok l' →
          l'.valor = v' ∧ l'.alertas = dC600.alertas)) :=
  ⟨by decide,
    claim_C9_alto_valor_frame 600 catFood ⟨2024, 12, 5⟩ "Compra grande"
      FormaPagamento.CREDITO "d9" dC600 (by decide)⟩

/-- C2: an entry whose month-year differs from the budget's, or that equals
(per entry equality) one already held, is rejected with a validation error
and the budget is returned unchanged. -/
theorem claim_C2_rejeita_sem_mutacao (o : OrcamentoMensal) (l : Lancamento)
    (hbad : l.mes_ano ≠ o.mes_ano ∨ ∃ e ∈ o.lancamentos, Lancamento.eqb e l = true) :
    (o.adicionar_lancamento l).1 = o
    ∧ ∃ msg, (o.adicionar_lancamento l).2 = .error msg := by
  unfold OrcamentoMensal.adicionar_lancamento
  by_cases h1 : l.mes_ano ≠ o.mes_ano
  · rw [if_pos h1]
    exact ⟨rfl, _, rfl⟩
  · rw [if_neg h1]
    have h2 : o.lancamentos.any (fun e => Lancamento.eqb e l) = true := by
      rcases hbad with hbad | ⟨e, he, heq⟩
      · exact absurd hbad h1
      · exact List.any_eq_true.mpr ⟨e, he, heq⟩
    rw [if_pos h2]
    exact ⟨rfl, _, rfl⟩

/-- Witness for C2: the November income is rejected by the December budget,
which stays unchanged. -/
theorem claim_C2_witness :
    (rNov.mes_ano ≠ oC1.mes_ano ∨ ∃ e ∈ oC1.lancamentos, Lancamento.eqb e rNov = true)
    ∧ ((oC1.adicionar_lancamento rNov).1 = oC1
      ∧ ∃ msg, (oC1.adicionar_lancamento rNov).2 = .error msg) :=
  ⟨Or.inl (by decide), claim_C2_rejeita_sem_mutacao oC1 rNov (Or.inl (by decide))⟩

theorem tipo_criar_alto (i : String) (v : ℚ) :
    (Alerta.criar_alerta_alto_valor i v).tipo = TipoAlerta.ALTO_VALOR := rfl

theorem tipo_criar_limite (ci cn : String) (lim tot : ℚ) :
    (Alerta.criar_alerta_limite_excedido ci cn lim tot).tipo =
      TipoAlerta.LIMITE_EXCEDIDO := rfl

theorem tipo_criar_deficit (m a : Nat) (s : ℚ) :
    (Alerta.criar_alerta_deficit m a s).tipo = TipoAlerta.DEFICIT_ORCAMENTARIO := rfl

/-- Every alert produced by the expense block is the high-value alert or the
limit-exceeded alert for this entry. -/
theorem alertasDespesa_mem (o : OrcamentoMensal) (b : LancamentoBase)
    (al : List String) (a : Alerta) (ha : a ∈ (o.alertasDespesa b al).2) :
    a = Alerta.criar_alerta_alto_valor b.id b.valor ∨
    a = Alerta.criar_alerta_limite_excedido b.categoria.id b.categoria.nome
        (b.categoria.limite_mensal.getD 0)
        (o.total_por_categoria b.categoria + b.valor) := by
  unfold OrcamentoMensal.alertasDespesa at ha
  dsimp only at ha
  rw [List.mem_append] at ha
  rcases ha with ha | ha
  · split at ha
    · exact Or.inl (by simpa using ha)
    · simp at ha
  · split at ha
    · exact Or.inr (by simpa using ha)
    · simp at ha

/-- The expense block never produces a deficit alert. -/
theorem alertasDespesa_ne_deficit (o : OrcamentoMensal) (b : LancamentoBase)
    (al : List String) (a : Alerta) (ha : a ∈ (o.alertasDespesa b al).2) :
    ¬ a.tipo = TipoAlerta.DEFICIT_ORCAMENTARIO := by
  rcases alertasDespesa_mem o b al a ha with h | h <;> subst h <;> simp
    [tipo_criar_alto, tipo_criar_limite]

/-- Every alert returned by the insertion half is either one of the handed-in
generated alerts or a deficit alert. -/
theorem inserirEAlertar_snd_mem (o : OrcamentoMensal) (l : Lancamento)
    (g : List Alerta) (a : Alerta) (ha : a ∈ (o.inserirEAlertar l g).2) :
    a ∈ g ∨ a.tipo = TipoAlerta.DEFICIT_ORCAMENTARIO := by
  unfold OrcamentoMensal.inserirEAlertar at ha
  dsimp only at ha
  split at ha
  · split at ha
    · exact Or.inl ha
    · rw [List.mem_append] at ha
      rcases ha with ha | ha
      · exact Or.inl ha
      · right
        rw [List.mem_singleton] at ha
        rw [ha, tipo_criar_deficit]
  · exact Or.inl ha

/-- C10: every LIMITE_EXCEDIDO alert returned by a successful
`adicionar_lancamento` call links only the category: its `categoria_id` is
the offending category's identifier while `lancamento_id` and `mes_ano` are
both absent. -/
theorem claim_C10_limite_links_categoria (o : OrcamentoMensal) (l : Lancamento)
    (o' : OrcamentoMensal) (res : List Alerta)
    (hok : o.adicionar_lancamento l = (o', .ok res)) :
    ∀ a ∈ res, a.tipo = TipoAlerta.LIMITE_EXCEDIDO →
      a.categoria_id = some l.categoria.id ∧ a.lancamento_id = none ∧
        a.mes_ano = none := by
  unfold OrcamentoMensal.adicionar_lancamento at hok
  split at hok
  · simp at hok
  · split at hok
    · simp at hok
    · dsimp only at hok
      simp only [Prod.mk.injEq, Except.ok.injEq] at hok
      obtain ⟨-, hres⟩ := hok
      intro a ha hlim
      subst hres
      cases l with
      | receita b =>
          rcases inserirEAlertar_snd_mem _ _ _ _ ha with hg | hdef
          · simp at hg
          · rw [hdef] at hlim; cases hlim
      | despesa b al =>
          rcases inserirEAlertar_snd_mem _ _ _ _ ha with hg | hdef
          · rcases alertasDespesa_mem _ _ _ _ hg with h | h
            · rw [h, tipo_criar_alto] at hlim; cases hlim
            · subst h
              exact ⟨rfl, rfl, rfl⟩
          · rw [hdef] at hlim; cases hlim

/-- Witness for C10: the limit-exceeded alert of the concrete scenario links
the Food category and nothing else. -/
theorem claim_C10_witness :
    o1C.adicionar_lancamento dC200 =
      ((o1C.adicionar_lancamento dC200).1,
        .ok [Alerta.criar_alerta_limite_excedido "cat-food" "Food" 500 600])
    ∧ ((Alerta.criar_alerta_limite_excedido "cat-food" "Food" 500 600).categoria_id =
        some dC200.categoria.id
      ∧ (Alerta.criar_alerta_limite_excedido "cat-food" "Food" 500 600).lancamento_id =
        none
      ∧ (Alerta.criar_alerta_limite_excedido "cat-food" "Food" 500 600).mes_ano =
        none) :=
  ⟨by decide,
    claim_C10_limite_links_categoria o1C dC200 (o1C.adicionar_lancamento dC200).1
      [Alerta.criar_alerta_limite_excedido "cat-food" "Food" 500 600] (by decide)
      (Alerta.criar_alerta_limite_excedido "cat-food" "Food" 500 600)
      (List.mem_singleton.mpr rfl) rfl⟩

theorem ehAlertaDeficit_iff (ma : Nat × Nat) (a : Alerta) :
    OrcamentoMensal.ehAlertaDeficit ma a = true ↔
      (a.tipo = TipoAlerta.DEFICIT_ORCAMENTARIO ∧ a.mes_ano = some ma) := by
  simp [OrcamentoMensal.ehAlertaDeficit]

/-- The list returned by the insertion half is the handed-in generated alerts
followed by exactly one deficit alert when the post-insertion balance is
negative and no deficit alert for the budget's month-year is in the
pre-call log. -/
theorem inserirEAlertar_snd_eq (o : OrcamentoMensal) (l : Lancamento)
    (g : List Alerta)
    (hg : ∀ a ∈ g, ¬ a.tipo = TipoAlerta.DEFICIT_ORCAMENTARIO) :
    (o.inserirEAlertar l g).2 =
      g ++ (if (o.inserirEAlertar l g).1.saldo < 0 ∧
            ¬ ∃ a ∈ o.alertas, a.tipo = TipoAlerta.DEFICIT_ORCAMENTARIO ∧
              a.mes_ano = some (o.mes, o.ano)
        then [Alerta.criar_alerta_deficit o.mes o.ano (o.inserirEAlertar l g).1.saldo]
        else []) := by
  unfold OrcamentoMensal.inserirEAlertar
  dsimp only
  split
  · rename_i h1
    split
    · rename_i h2
      rw [List.any_eq_true] at h2
      obtain ⟨a, ha, hpa⟩ := h2
      rw [ehAlertaDeficit_iff] at hpa
      rw [List.mem_append] at ha
      rcases ha with ha | ha
      · rw [if_neg, List.append_nil]
        intro hc
        exact hc.2 ⟨a, ha, hpa⟩
      · exact absurd hpa.1 (hg a ha)
    · rename_i h2
      have hnx : ¬ ∃ a ∈ o.alertas, a.tipo = TipoAlerta.DEFICIT_ORCAMENTARIO ∧
          a.mes_ano = some (o.mes, o.ano) := by
        intro ⟨a, ha, hpa⟩
        exact h2 (List.any_eq_true.mpr
          ⟨a, List.mem_append.mpr (Or.inl ha), (ehAlertaDeficit_iff _ a).mpr hpa⟩)
      rw [if_pos ⟨h1, hnx⟩]
      rfl
  · rename_i h1
    rw [if_neg, List.append_nil]
    intro hc
    exact h1 hc.1

/-- The expense block's generated list, spelled through its two
conditions. -/
theorem alertasDespesa_snd (o : OrcamentoMensal) (b : LancamentoBase)
    (al : List String) :
    (o.alertasDespesa b al).2 =
      (if "ALTO_VALOR" ∈ al then [Alerta.criar_alerta_alto_valor b.id b.valor] else [])
      ++ (if (Despesa.verificar_limite_categoria b.categoria b.valor al
              (o.total_por_categoria b.categoria)).1 = true then
            [Alerta.criar_alerta_limite_excedido b.categoria.id b.categoria.nome
              (b.categoria.limite_mensal.getD 0)
              (o.total_por_categoria b.categoria + b.valor)] else []) := by
  unfold OrcamentoMensal.alertasDespesa
  dsimp only
  by_cases h1 : "ALTO_VALOR" ∈ al <;>
  by_cases h2 : (Despesa.verificar_limite_categoria b.categoria b.valor al
      (o.total_por_categoria b.categoria)).1 = true <;>
    simp [h1, h2, List.contains, List.elem_eq_mem]

/-- The state returned by `inserirEAlertar` keeps the month and year. -/
theorem inserirEAlertar_mes_ano (o : OrcamentoMensal) (l : Lancamento)
    (g : List Alerta) :
    (o.inserirEAlertar l g).1.mes = o.mes ∧ (o.inserirEAlertar l g).1.ano = o.ano := by
  unfold OrcamentoMensal.inserirEAlertar
  dsimp only
  split
  · split
    · exact ⟨rfl, rfl⟩
    · exact ⟨rfl, rfl⟩
  · exact ⟨rfl, rfl⟩

/-- C1 counterexample: the scenario's first insertion does not return an
empty alert list — the 400.0 expense drives the no-income budget's balance to
-400.0 and the call returns a BudgetDeficit alert. -/
theorem claim_C1_counterexample :
    (oC1.adicionar_lancamento dC400).2 ≠ .ok ([] : List Alerta)
    ∧ (oC1.adicionar_lancamento dC400).2 =
        .ok [Alerta.criar_alerta_deficit 12 2024 (-400)] :=
  ⟨by decide, by decide⟩

/-- C1 (amended): for every accepted expense the returned list is, in order,
the HighValue alert iff the entry carries the ALTO_VALOR tag, the
LimitExceeded alert iff `verificar_limite_categoria` fires against the
pre-insertion category total (the alert's total being that total plus the
entry's amount), and the BudgetDeficit alert iff the post-insertion balance
is negative and no deficit alert for the budget's month-year was already
logged.  In the concrete scenario the first insertion returns exactly one
BudgetDeficit alert (not none), and the second returns exactly one
LimitExceeded alert with limit 500.00 and total 600.00. -/
theorem claim_C1_alert_order :
    (∀ (o : OrcamentoMensal) (b : LancamentoBase) (al : List String)
        (o' : OrcamentoMensal) (res : List Alerta),
      o.adicionar_lancamento (Lancamento.despesa b al) = (o', .ok res) →
      res =
        (if "ALTO_VALOR" ∈ al then [Alerta.criar_alerta_alto_valor b.id b.valor]
         else [])
        ++ (if (Despesa.verificar_limite_categoria b.categoria b.valor al
                (o.total_por_categoria b.categoria)).1 = true then
              [Alerta.criar_alerta_limite_excedido b.categoria.id b.categoria.nome
                (b.categoria.limite_mensal.getD 0)
                (o.total_por_categoria b.categoria + b.valor)] else [])
        ++ (if o'.saldo < 0 ∧ ¬ ∃ a ∈ o.alertas,
              a.tipo = TipoAlerta.DEFICIT_ORCAMENTARIO ∧ a.mes_ano = some (o.mes, o.ano)
            then [Alerta.criar_alerta_deficit o.mes o.ano o'.saldo] else []))
    ∧ (oC1.adicionar_lancamento dC400).2 =
        .ok [Alerta.criar_alerta_deficit 12 2024 (-400)]
    ∧ (o1C.adicionar_lancamento dC200).2 =
        .ok [Alerta.criar_alerta_limite_excedido "cat-food" "Food" 500 600]
    ∧ (Alerta.criar_alerta_limite_excedido "cat-food" "Food" 500 600).mensagem =
        "Limite da categoria 'Food' excedido! Limite: R$500.00, Total: R$600.00" := by
  refine ⟨?_, by decide, by decide, by decide⟩
  intro o b al o' res hok
  unfold OrcamentoMensal.adicionar_lancamento at hok
  split at hok
  · simp at hok
  · split at hok
    · simp at hok
    · dsimp only at hok
      simp only [Prod.mk.injEq, Except.ok.injEq] at hok
      obtain ⟨ho', hres⟩ := hok
      subst ho'
      subst hres
      rw [inserirEAlertar_snd_eq]
      · rw [alertasDespesa_snd]
      · exact alertasDespesa_ne_deficit o b al

/-- Witness for C1 on a one-entry budget going into deficit. -/
theorem claim_C1_witness :
    oW.adicionar_lancamento (Lancamento.despesa bW []) =
      (oW2, .ok [Alerta.criar_alerta_deficit 1 2000 (-1)])
    ∧ [Alerta.criar_alerta_deficit 1 2000 (-1)] =
        (if "ALTO_VALOR" ∈ ([] : List String) then
          [Alerta.criar_alerta_alto_valor bW.id bW.valor] else [])
        ++ (if (Despesa.verificar_limite_categoria bW.categoria bW.valor []
                (oW.total_por_categoria bW.categoria)).1 = true then
              [Alerta.criar_alerta_limite_excedido bW.categoria.id bW.categoria.nome
                (bW.categoria.limite_mensal.getD 0)
                (oW.total_por_categoria bW.categoria + bW.valor)] else [])
        ++ (if oW2.saldo < 0 ∧ ¬ ∃ a ∈ oW.alertas,
              a.tipo = TipoAlerta.DEFICIT_ORCAMENTARIO ∧ a.mes_ano = some (oW.mes, oW.ano)
            then [Alerta.criar_alerta_deficit oW.mes oW.ano oW2.saldo] else []) :=
  ⟨by decide,
    claim_C1_alert_order.1 oW bW [] oW2
      [Alerta.criar_alerta_deficit 1 2000 (-1)] (by decide)⟩

theorem ehAlertaDeficit_false_of_ne (ma : Nat × Nat) (a : Alerta)
    (h : ¬ a.tipo = TipoAlerta.DEFICIT_ORCAMENTARIO) :
    OrcamentoMensal.ehAlertaDeficit ma a = false := by
  rw [← Bool.not_eq_true, ehAlertaDeficit_iff]
  intro hc
  exact h hc.1

/-- The insertion half adds at most one deficit alert, and only when none for
the budget's month-year was logged before. -/
theorem inserirEAlertar_deficitCount (o : OrcamentoMensal) (l : Lancamento)
    (g : List Alerta) (hg : ∀ a ∈ g, ¬ a.tipo = TipoAlerta.DEFICIT_ORCAMENTARIO) :
    ((o.inserirEAlertar l g).1).deficitCount ≤ max o.deficitCount 1 := by
  have hgf : ∀ a ∈ g, OrcamentoMensal.ehAlertaDeficit (o.mes, o.ano) a = false :=
    fun a ha => ehAlertaDeficit_false_of_ne _ a (hg a ha)
  have hfg : g.filter (OrcamentoMensal.ehAlertaDeficit (o.mes, o.ano)) = [] :=
    List.filter_eq_nil_iff.mpr (by
      intro a ha
      rw [hgf a ha]
      exact Bool.false_ne_true)
  unfold OrcamentoMensal.inserirEAlertar
  dsimp only
  split
  · split
    · show ((o.alertas ++ g).filter
          (OrcamentoMensal.ehAlertaDeficit (o.mes, o.ano))).length ≤
        max o.deficitCount 1
      rw [List.filter_append, hfg, List.append_nil]
      exact le_max_left _ _
    · rename_i hany
      show (((o.alertas ++ g) ++
            [Alerta.criar_alerta_deficit o.mes o.ano _]).filter
          (OrcamentoMensal.ehAlertaDeficit (o.mes, o.ano))).length ≤
        max o.deficitCount 1
      rw [List.filter_append]
      have hnil : (o.alertas ++ g).filter
          (OrcamentoMensal.ehAlertaDeficit (o.mes, o.ano)) = [] := by
        rw [List.filter_eq_nil_iff]
        intro a ha hpa
        exact hany (List.any_eq_true.mpr ⟨a, ha, hpa⟩)
      rw [hnil, List.nil_append]
      have : (OrcamentoMensal.ehAlertaDeficit (o.mes, o.ano)
          (Alerta.criar_alerta_deficit o.mes o.ano
            ({ o with
                lancamentos := List.insertionSort Lancamento.le (o.lancamentos ++ [l]),
                alertas := o.alertas ++ g } : OrcamentoMensal).saldo)) = true := by
        rw [ehAlertaDeficit_iff]
        exact ⟨rfl, rfl⟩
      simp [List.filter, this]
  · show ((o.alertas ++ g).filter
        (OrcamentoMensal.ehAlertaDeficit (o.mes, o.ano))).length ≤
      max o.deficitCount 1
    rw [List.filter_append, hfg, List.append_nil]
    exact le_max_left _ _

/-- One `adicionar_lancamento` call keeps the deficit-alert count at most at
`max` of its old value and 1, and preserves the budget's month and year. -/
theorem adicionar_deficitCount (o : OrcamentoMensal) (l : Lancamento) :
    ((o.adicionar_lancamento l).1).deficitCount ≤ max o.deficitCount 1
    ∧ ((o.adicionar_lancamento l).1).mes = o.mes
    ∧ ((o.adicionar_lancamento l).1).ano = o.ano := by
  unfold OrcamentoMensal.adicionar_lancamento
  split
  · exact ⟨le_max_left _ _, rfl, rfl⟩
  · split
    · exact ⟨le_max_left _ _, rfl, rfl⟩
    · dsimp only
      cases l with
      | receita b =>
          refine ⟨inserirEAlertar_deficitCount o _ _ (by intro a ha; simp at ha), ?_⟩
          exact inserirEAlertar_mes_ano o _ _
      | despesa b al =>
          refine ⟨inserirEAlertar_deficitCount o _ _
            (alertasDespesa_ne_deficit o b al), ?_⟩
          exact inserirEAlertar_mes_ano o _ _

/-- Replaying any call sequence from a state with at most one deficit alert
keeps at most one deficit alert. -/
theorem addAll_deficitCount (ls : List Lancamento) (o : OrcamentoMensal)
    (h : o.deficitCount ≤ 1) : (o.addAll ls).deficitCount ≤ 1 := by
  induction ls generalizing o with
  | nil => exact h
  | cons l rest ih =>
      show ((((o.adicionar_lancamento l).1)).addAll rest).deficitCount ≤ 1
      refine ih _ ?_
      have := (adicionar_deficitCount o l).1
      omega

/-- C3: starting from any validly constructed MonthlyBudget, no sequence of
`adicionar_lancamento` calls ever leaves more than one BudgetDeficit alert
carrying the budget's own month-year in the log. -/
theorem claim_C3_deficit_unico (mes ano : Nat) (rp : ℚ) (i : String)
    (o : OrcamentoMensal) (hok : OrcamentoMensal.mk_valid mes ano rp i = .ok o)
    (ls : List Lancamento) : (o.addAll ls).deficitCount ≤ 1 := by
  unfold OrcamentoMensal.mk_valid at hok
  split at hok
  · cases hok
  · split at hok
    · cases hok
    · split at hok
      · cases hok
      · cases hok
        exact addAll_deficitCount ls _ (by
          show (List.filter _ []).length ≤ 1
          simp)

/-- Witness for C3 on the one-expense deficit run. -/
theorem claim_C3_witness :
    OrcamentoMensal.mk_valid 1 2000 0 "ow" = .ok oW
    ∧ (oW.addAll [dW]).deficitCount ≤ 1 :=
  ⟨by decide, claim_C3_deficit_unico 1 2000 0 "ow" oW (by decide) [dW]⟩

theorem alookup_map_value {α β γ : Type} [DecidableEq α] (f : β → γ) (k : α) :
    ∀ m : List (α × β),
      alookup k (m.map (fun p => (p.1, f p.2))) = (alookup k m).map f
  | [] => rfl
  | (k', v) :: rest => by
      by_cases h : k' = k
      · simp [alookup, h]
      · simp [alookup, h, alookup_map_value f k rest]

/-- C6: with zero total expense the percentage mapping is empty (no division
by zero); otherwise each category name with expenses maps to its expense
total divided by the total expense, times 100; on expenses
{Food: 300, Transport: 100} this yields {Food: 75, Transport: 25}. -/
theorem claim_C6_percentual :
    (∀ o : OrcamentoMensal, o.total_despesas = 0 → o.percentual_por_categoria = [])
    ∧ (∀ (o : OrcamentoMensal) (nome : String), o.total_despesas ≠ 0 →
        alookup nome o.percentual_por_categoria =
          (alookup nome o.despesas_por_categoria).map
            (fun v => v / o.total_despesas * 100))
    ∧ oC6.percentual_por_categoria = [("Food", 75), ("Transport", 25)] := by
  refine ⟨?_, ?_, by decide⟩
  · intro o h
    unfold OrcamentoMensal.percentual_por_categoria
    dsimp only
    rw [if_pos h]
  · intro o nome h
    unfold OrcamentoMensal.percentual_por_categoria
    dsimp only
    rw [if_neg h]
    exact alookup_map_value (fun v => v / o.total_despesas * 100) nome
      o.despesas_por_categoria

/-- Witness for C6 on the concrete two-category budget. -/
theorem claim_C6_witness :
    oC6.total_despesas ≠ 0
    ∧ alookup "Food" oC6.percentual_por_categoria =
        (alookup "Food" oC6.despesas_por_categoria).map
          (fun v => v / oC6.total_despesas * 100) :=
  ⟨by decide, claim_C6_percentual.2.1 oC6 "Food" (by decide)⟩

theorem Data.le_trans : ∀ {a b c : Data}, Data.le a b → Data.le b c → Data.le a c := by
  intro ⟨y1, m1, d1⟩ ⟨y2, m2, d2⟩ ⟨y3, m3, d3⟩ h1 h2
  unfold Data.le Data.lt at h1 h2 ⊢
  dsimp only at h1 h2 ⊢
  omega

theorem Data.le_total : ∀ (a b : Data), Data.le a b ∨ Data.le b a := by
  intro ⟨y1, m1, d1⟩ ⟨y2, m2, d2⟩
  unfold Data.le Data.lt
  dsimp only
  omega

theorem Data.le_antisymm : ∀ {a b : Data}, Data.le a b → Data.le b a → a = b := by
  intro ⟨y1, m1, d1⟩ ⟨y2, m2, d2⟩ h1 h2
  unfold Data.le Data.lt at h1 h2
  dsimp only at h1 h2
  simp only [Data.mk.injEq]
  omega

theorem Data.le_refl (a : Data) : Data.le a a := by
  obtain ⟨y, m, d⟩ := a
  unfold Data.le Data.lt
  dsimp only
  omega

instance : IsTrans Lancamento Lancamento.dateLe :=
  ⟨fun _ _ _ => Data.le_trans⟩

instance : IsTotal Lancamento Lancamento.dateLe :=
  ⟨fun a b => Data.le_total a.data b.data⟩

theorem alookup_dictSet {β : Type} (k x : Data) (v : β) :
    ∀ m : List (Data × β),
      alookup x (dictSet m k v) = if x = k then some v else alookup x m
  | [] => by
      by_cases h : x = k
      · subst h
        simp [dictSet, alookup]
      · simp [dictSet, alookup, h, Ne.symm h]
  | (k1, v1) :: rest => by
      by_cases h1 : k1 = k
      · subst h1
        by_cases h2 : x = k1
        · subst h2
          simp [dictSet, alookup]
        · simp [dictSet, alookup, h2, Ne.symm h2]
      · by_cases h2 : k1 = x
        · subst h2
          simp [dictSet, alookup, h1, fun hc : k1 = k => h1 hc]
        · simp [dictSet, alookup, h1, h2, alookup_dictSet k x v rest]

theorem mem_keys_dictSet {β : Type} (k x : Data) (v : β) :
    ∀ m : List (Data × β),
      x ∈ (dictSet m k v).map Prod.fst ↔ x ∈ m.map Prod.fst ∨ x = k
  | [] => by simp [dictSet]
  | (k1, v1) :: rest => by
      by_cases h1 : k1 = k
      · subst h1
        simp [dictSet]
        tauto
      · simp only [dictSet, if_neg h1, List.map_cons, List.mem_cons,
          mem_keys_dictSet k x v rest]
        tauto

theorem dictSet_nodup {β : Type} (k : Data) (v : β) :
    ∀ m : List (Data × β), (m.map Prod.fst).Nodup →
      ((dictSet m k v).map Prod.fst).Nodup
  | [], _ => by simp [dictSet]
  | (k1, v1) :: rest, h => by
      rw [List.map_cons, List.nodup_cons] at h
      by_cases h1 : k1 = k
      · subst h1
        simpa [dictSet] using h
      · simp only [dictSet, if_neg h1, List.map_cons, List.nodup_cons]
        refine ⟨?_, dictSet_nodup k v rest h.2⟩
        rw [mem_keys_dictSet]
        rintro (hc | hc)
        · exact h.1 hc
        · exact h1 hc

theorem perm_any {α : Type} {l1 l2 : List α} (h : List.Perm l1 l2) (f : α → Bool) :
    l1.any f = l2.any f := by
  have hiff : l1.any f = true ↔ l2.any f = true := by
    simp only [List.any_eq_true]
    exact ⟨fun ⟨x, hx, hfx⟩ => ⟨x, h.mem_iff.mp hx, hfx⟩,
      fun ⟨x, hx, hfx⟩ => ⟨x, h.mem_iff.mpr hx, hfx⟩⟩
  cases b1 : l1.any f <;> cases b2 : l2.any f <;> simp_all

/-- Replaying a date-sorted list: each date occurring in the list ends up
bound to the accumulator plus the signed sum of all processed entries dated
up to it; absent dates fall through to the initial mapping. -/
theorem saldoGo_alookup (d : Data) :
    ∀ (L : List Lancamento) (acc : ℚ) (m : List (Data × ℚ)),
      L.Pairwise Lancamento.dateLe →
      alookup d (OrcamentoMensal.saldoGo L acc m) =
        if L.any (fun e => decide (e.data = d)) = true
        then some (acc + ((L.filter (fun e => decide (Data.le e.data d))).map
            Lancamento.signed).sum)
        else alookup d m := by
  intro L
  induction L with
  | nil => intro acc m _; simp [OrcamentoMensal.saldoGo]
  | cons l rest ih =>
      intro acc m hp
      obtain ⟨hl, hp'⟩ := List.pairwise_cons.mp hp
      show alookup d (OrcamentoMensal.saldoGo rest (acc + l.signed) (dictSet m l.data (acc + l.signed))) = _
      rw [ih (acc + l.signed) _ hp']
      by_cases hrest : rest.any (fun e => decide (e.data = d)) = true
      · rw [if_pos hrest]
        obtain ⟨e, he, hed⟩ := List.any_eq_true.mp hrest
        rw [decide_eq_true_eq] at hed
        have hld : Data.le l.data d := hed ▸ hl e he
        have hcons : (l :: rest).any (fun e => decide (e.data = d)) = true :=
          List.any_eq_true.mpr ⟨e, List.mem_cons_of_mem l he, by simpa using hed⟩
        rw [if_pos hcons, List.filter_cons_of_pos (by simpa using hld),
          List.map_cons, List.sum_cons]
        rw [add_assoc]
      · rw [if_neg hrest]
        rw [alookup_dictSet]
        by_cases hdl : d = l.data
        · rw [if_pos hdl]
          have hcons : (l :: rest).any (fun e => decide (e.data = d)) = true :=
            List.any_eq_true.mpr ⟨l, List.mem_cons_self l rest, by simpa using hdl.symm⟩
          rw [if_pos hcons]
          have hlekeep : Data.le l.data d := hdl ▸ Data.le_refl l.data
          rw [List.filter_cons_of_pos (by simpa using hlekeep)]
          have hnil : rest.filter (fun e => decide (Data.le e.data d)) = [] := by
            rw [List.filter_eq_nil_iff]
            intro e he hpe
            rw [decide_eq_true_eq] at hpe
            have h1 : Data.le l.data e.data := hl e he
            have h2 : Data.le e.data l.data := hdl ▸ hpe
            have : e.data = d := by
              rw [hdl]
              exact Data.le_antisymm h2 h1
            exact hrest (List.any_eq_true.mpr ⟨e, he, by simpa using this⟩)
          rw [hnil, List.map_cons, List.sum_cons]
          simp
        · rw [if_neg hdl]
          have hlne : ¬ (decide (l.data = d) = true) := by
            simpa using fun hc : l.data = d => hdl hc.symm
          have hcons : ¬ ((l :: rest).any (fun e => decide (e.data = d)) = true) := by
            rw [List.any_cons]
            simp only [Bool.or_eq_true]
            rintro (hc | hc)
            · exact hlne hc
            · exact hrest hc
          rw [if_neg hcons]

/-- `OrcamentoMensal.saldoGo` keeps the date keys of the mapping free of duplicates. -/
theorem saldoGo_nodup :
    ∀ (L : List Lancamento) (acc : ℚ) (m : List (Data × ℚ)),
      (m.map Prod.fst).Nodup → ((OrcamentoMensal.saldoGo L acc m).map Prod.fst).Nodup
  | [], _, _, h => h
  | l :: rest, acc, m, h =>
      saldoGo_nodup rest _ _ (dictSet_nodup l.data (acc + l.signed) m h)

/-- C7: `saldo_por_dia` maps exactly the dates of held entries, each to the
cumulative balance (incomes added, expenses subtracted) over all held entries
dated up to it — so entries sharing a date collapse to one binding — and its
date keys contain no duplicates. -/
theorem claim_C7_saldo_por_dia (o : OrcamentoMensal) (d : Data) :
    (alookup d o.saldo_por_dia =
      if o.lancamentos.any (fun e => decide (e.data = d)) = true
      then some (((o.lancamentos.filter (fun e => decide (Data.le e.data d))).map
          Lancamento.signed).sum)
      else none)
    ∧ (o.saldo_por_dia.map Prod.fst).Nodup := by
  constructor
  · unfold OrcamentoMensal.saldo_por_dia
    rw [saldoGo_alookup d _ 0 []
      (List.sorted_insertionSort Lancamento.dateLe o.lancamentos)]
    have hperm : List.Perm (List.insertionSort Lancamento.dateLe o.lancamentos) o.lancamentos :=
      List.perm_insertionSort _ _
    rw [perm_any hperm]
    have hsum : (((List.insertionSort Lancamento.dateLe o.lancamentos).filter
          (fun e => decide (Data.le e.data d))).map Lancamento.signed).sum =
        ((o.lancamentos.filter (fun e => decide (Data.le e.data d))).map
          Lancamento.signed).sum :=
      ((hperm.filter _).map _).sum_eq
    rw [hsum, zero_add]
    rfl
  · exact saldoGo_nodup _ 0 [] (by simp)
